import Mathlib

/-!
Verification of the project financial-model engine in
src/analytics/init_database.py.

The engine consists of two functions:

* calculate_cash_flows (lines 252-307): projects annual cash flows over the
  project life, threading a debt balance and a cumulative cash position
  through the years.
* calculate_metrics (lines 310-363): reduces the cash-flow sequence and the
  assumptions to the scalar key metrics.

Python floats are modelled as exact rationals.  Python round(x, d) is
modelled by pyRound (round half to even on the scaled value).  A Python
ZeroDivisionError is modelled by an Option result: none means the call
raises instead of returning a value.  The random offset drawn by
random.uniform(-0.03, 0.05) at line 321 is made an explicit parameter r of
calculate_metrics.
-/

/-- Fields of the financial_assumptions record consumed by the engine
(dictionary keys used in calculate_cash_flows and calculate_metrics).
Integer-valued fields (loan_tenor_years, depreciation_years) are integers
as in the database schema; all other fields are rationals. -/
structure AssumptionSet where
  capex_per_mw : ℚ
  opex_per_mw_year : ℚ
  capacity_factor : ℚ
  degradation_rate : ℚ
  electricity_price_mwh : ℚ
  price_escalation_rate : ℚ
  discount_rate : ℚ
  debt_ratio : ℚ
  interest_rate : ℚ
  loan_tenor_years : ℤ
  tax_rate : ℚ
  depreciation_years : ℤ
deriving DecidableEq

/-- Round to the nearest integer, ties to even, as Python round does. -/
def roundHalfEven (x : ℚ) : ℤ :=
  if x - ⌊x⌋ < 1/2 then ⌊x⌋
  else if 1/2 < x - ⌊x⌋ then ⌊x⌋ + 1
  else if Even ⌊x⌋ then ⌊x⌋ else ⌊x⌋ + 1

/-- Python round(x, d) for a nonnegative number of decimal places d. -/
def pyRound (x : ℚ) (d : ℕ) : ℚ := (roundHalfEven (x * 10 ^ d) : ℚ) / 10 ^ d

/-- Total capital expenditure: capex = capex_per_mw * capacity (line 254). -/
def capex (capacity : ℚ) (a : AssumptionSet) : ℚ := a.capex_per_mw * capacity

/-- Base-year generation: capacity * capacity_factor * 8760 (line 255). -/
def annual_generation_base (capacity : ℚ) (a : AssumptionSet) : ℚ :=
  capacity * a.capacity_factor * 8760

/-- Generation in a given 1-based year after degradation (lines 264-265). -/
def generationAt (capacity : ℚ) (a : AssumptionSet) (year : ℕ) : ℚ :=
  annual_generation_base capacity a * (1 - a.degradation_rate) ^ (year - 1)

/-- Electricity price in a given year after escalation (line 268). -/
def priceAt (a : AssumptionSet) (year : ℕ) : ℚ :=
  a.electricity_price_mwh * (1 + a.price_escalation_rate) ^ (year - 1)

/-- Revenue in a given year (line 270). -/
def revenueAt (capacity : ℚ) (a : AssumptionSet) (year : ℕ) : ℚ :=
  generationAt capacity a year * priceAt a year

/-- Operating expenditure in a given year, escalating at a fixed 2 percent
per year (line 271). -/
def opexAt (capacity : ℚ) (a : AssumptionSet) (year : ℕ) : ℚ :=
  a.opex_per_mw_year * capacity * (1 + 2/100) ^ (year - 1)

/-- EBITDA in a given year (line 272). -/
def ebitdaAt (capacity : ℚ) (a : AssumptionSet) (year : ℕ) : ℚ :=
  revenueAt capacity a year - opexAt capacity a year

/-- Debt balance after a given number of years, from initial balance b0 and
tenor.  This is the debt_balance state variable of the loop: for 1-based
year y, while year <= loan_tenor_years and debt_balance > 0, the principal
tranche debt_balance / (loan_tenor_years - year + 1) is subtracted
(lines 259, 277-283). -/
def debtBal (b0 : ℚ) (tenor : ℤ) : ℕ → ℚ
  | 0 => b0
  | y + 1 =>
    let b := debtBal b0 tenor y
    if ((y : ℤ) + 1 ≤ tenor ∧ 0 < b) then
      b - b / ((tenor - ((y : ℤ) + 1) + 1 : ℤ) : ℚ)
    else b

/-- Debt balance of the engine after a given year; the initial balance is
capex * debt_ratio (line 259). -/
def debtBalance (capacity : ℚ) (a : AssumptionSet) (year : ℕ) : ℚ :=
  debtBal (capex capacity a * a.debt_ratio) a.loan_tenor_years year

/-- Interest accrued in a given year, on the opening balance (line 278). -/
def interestAt (capacity : ℚ) (a : AssumptionSet) (year : ℕ) : ℚ :=
  if ((year : ℤ) ≤ a.loan_tenor_years ∧ 0 < debtBalance capacity a (year - 1)) then
    debtBalance capacity a (year - 1) * a.interest_rate
  else 0

/-- Principal repaid in a given year (line 279). -/
def principalAt (capacity : ℚ) (a : AssumptionSet) (year : ℕ) : ℚ :=
  if ((year : ℤ) ≤ a.loan_tenor_years ∧ 0 < debtBalance capacity a (year - 1)) then
    debtBalance capacity a (year - 1) / ((a.loan_tenor_years - (year : ℤ) + 1 : ℤ) : ℚ)
  else 0

/-- Straight-line depreciation in a given year (lines 260, 274).  The
Python code computes annual_depreciation = capex / depreciation_years once
before the loop, which raises ZeroDivisionError when depreciation_years is
zero; that failure is modelled at calculate_cash_flows.  For a nonzero
depreciation_years this function gives the per-year value. -/
def depreciationAt (capacity : ℚ) (a : AssumptionSet) (year : ℕ) : ℚ :=
  if (year : ℤ) ≤ a.depreciation_years then
    capex capacity a / (a.depreciation_years : ℚ)
  else 0

/-- Earnings before tax in a given year (line 285). -/
def ebtAt (capacity : ℚ) (a : AssumptionSet) (year : ℕ) : ℚ :=
  ebitdaAt capacity a year - depreciationAt capacity a year - interestAt capacity a year

/-- Tax in a given year, floored at zero (line 286). -/
def taxAt (capacity : ℚ) (a : AssumptionSet) (year : ℕ) : ℚ :=
  max 0 (ebtAt capacity a year * a.tax_rate)

/-- Net income in a given year (line 287). -/
def netIncomeAt (capacity : ℚ) (a : AssumptionSet) (year : ℕ) : ℚ :=
  ebtAt capacity a year - taxAt capacity a year

/-- Free cash flow in a given year (line 289). -/
def fcfAt (capacity : ℚ) (a : AssumptionSet) (year : ℕ) : ℚ :=
  ebitdaAt capacity a year - interestAt capacity a year - principalAt capacity a year -
    taxAt capacity a year

/-- Cumulative cash position after a given year: seeded with the initial
equity outlay -capex * (1 - debt_ratio) (line 258) and incremented by each
free cash flow (line 290).  These are the internal, pre-rounding values. -/
def cumulative (capacity : ℚ) (a : AssumptionSet) : ℕ → ℚ
  | 0 => -(capex capacity a) * (1 - a.debt_ratio)
  | y + 1 => cumulative capacity a y + fcfAt capacity a (y + 1)

/-- One row of the annual_cash_flows table (lines 292-305); every numeric
field is rounded to the whole currency unit exactly as the dictionary the
code appends. -/
structure CashFlowYear where
  year : ℕ
  revenue : ℚ
  opex : ℚ
  ebitda : ℚ
  depreciation : ℚ
  interest_expense : ℚ
  principal_repayment : ℚ
  tax : ℚ
  net_income : ℚ
  free_cash_flow : ℚ
  cumulative_cash_flow : ℚ
deriving DecidableEq

/-- The cash-flow record the loop appends for a given year (lines 292-305). -/
def mkCashFlowYear (capacity : ℚ) (a : AssumptionSet) (year : ℕ) : CashFlowYear :=
  { year := year
    revenue := pyRound (revenueAt capacity a year) 0
    opex := pyRound (opexAt capacity a year) 0
    ebitda := pyRound (ebitdaAt capacity a year) 0
    depreciation := pyRound (depreciationAt capacity a year) 0
    interest_expense := pyRound (interestAt capacity a year) 0
    principal_repayment := pyRound (principalAt capacity a year) 0
    tax := pyRound (taxAt capacity a year) 0
    net_income := pyRound (netIncomeAt capacity a year) 0
    free_cash_flow := pyRound (fcfAt capacity a year) 0
    cumulative_cash_flow := pyRound (cumulative capacity a year) 0 }

/-- calculate_cash_flows (lines 252-307).  Before the loop the code
computes annual_depreciation = capex / depreciation_years (line 260), an
integer division by zero when depreciation_years = 0, so the whole call
raises ZeroDivisionError: that is the none case.  Otherwise the loop over
years 1..project_life produces one record per year. -/
def calculate_cash_flows (capacity : ℚ) (a : AssumptionSet) (project_life : ℕ) :
    Option (List CashFlowYear) :=
  if a.depreciation_years = 0 then none
  else some ((List.range project_life).map fun i => mkCashFlowYear capacity a (i + 1))

/-- One row of the key_metrics table (lines 351-363). -/
structure KeyMetrics where
  total_capex : ℚ
  npv : ℚ
  irr : ℚ
  payback_period_years : ℚ
  lcoe : ℚ
  dscr_min : ℚ
  dscr_avg : ℚ
  equity_irr : ℚ
  total_generation_gwh : ℚ
  carbon_offset_tonnes : ℚ
deriving DecidableEq

/-- Debt service of a stored cash-flow record (line 341). -/
def debtService (cf : CashFlowYear) : ℚ := cf.interest_expense + cf.principal_repayment

/-- The dscr_values list (lines 339-343): one ratio per record whose stored
debt service is positive. -/
def dscrValues (cash_flows : List CashFlowYear) : List ℚ :=
  cash_flows.filterMap fun cf =>
    if 0 < debtService cf then some (cf.ebitda / debtService cf) else none

/-- Python min over a list, as used at line 345 (the empty case is guarded
there and never reached). -/
def pyMin : List ℚ → ℚ
  | [] => 0
  | x :: xs => xs.foldl min x

/-- The total_generation sum recomputed from the assumptions at
lines 331-334. -/
def totalGeneration (capacity : ℚ) (a : AssumptionSet) (project_life : ℕ) : ℚ :=
  ∑ y ∈ Finset.Icc 1 project_life,
    capacity * a.capacity_factor * 8760 * (1 - a.degradation_rate) ^ (y - 1)

/-- The npv accumulation of lines 316-318. -/
def npv_value (capacity : ℚ) (a : AssumptionSet) (cash_flows : List CashFlowYear) : ℚ :=
  -(a.capex_per_mw * capacity * (1 - a.debt_ratio)) +
    (cash_flows.map fun cf => cf.free_cash_flow / (1 + a.discount_rate) ^ cf.year).sum

/-- The payback loop of lines 323-328: the year of the first record with a
nonnegative stored cumulative cash flow, defaulting to project_life. -/
def payback_value (cash_flows : List CashFlowYear) (project_life : ℕ) : ℕ :=
  ((cash_flows.find? fun cf => decide (0 ≤ cf.cumulative_cash_flow)).map
    (fun cf => cf.year)).getD project_life

/-- The total_costs sum of line 335. -/
def total_costs_value (capacity : ℚ) (a : AssumptionSet)
    (cash_flows : List CashFlowYear) : ℚ :=
  a.capex_per_mw * capacity + (cash_flows.map fun cf => cf.opex).sum

/-- calculate_metrics (lines 310-363).  The call raises ZeroDivisionError
when total_generation is zero (line 336) or when the npv discount factor
(1 + discount_rate) ^ year is zero for some record (line 318, discount_rate
= -1 with a nonempty sequence); both raises are the none case.  The random
offset of line 321 is the explicit parameter r, so irr = 0.08 + r. -/
def calculate_metrics (capacity : ℚ) (a : AssumptionSet) (cash_flows : List CashFlowYear)
    (project_life : ℕ) (r : ℚ) : Option KeyMetrics :=
  if (cash_flows ≠ [] ∧ (1 : ℚ) + a.discount_rate = 0) ∨
      totalGeneration capacity a project_life = 0 then none
  else
    some
      { total_capex := pyRound (a.capex_per_mw * capacity) 0
        npv := pyRound (npv_value capacity a cash_flows) 0
        irr := pyRound ((0.08 : ℚ) + r) 4
        payback_period_years := pyRound ((payback_value cash_flows project_life : ℕ) : ℚ) 1
        lcoe := pyRound (total_costs_value capacity a cash_flows /
          totalGeneration capacity a project_life) 2
        dscr_min := pyRound
          (if (dscrValues cash_flows).isEmpty then 0 else pyMin (dscrValues cash_flows)) 2
        dscr_avg := pyRound
          (if (dscrValues cash_flows).isEmpty then 0
           else (dscrValues cash_flows).sum / ((dscrValues cash_flows).length : ℚ)) 2
        equity_irr := pyRound (((0.08 : ℚ) + r) * (1.2 : ℚ)) 4
        total_generation_gwh := pyRound (totalGeneration capacity a project_life / 1000) 1
        carbon_offset_tonnes := pyRound
          (totalGeneration capacity a project_life * (0.4 : ℚ) / 1000 * 1000) 0 }

/-- Composition of the two engine calls as main performs them at
lines 506-510: the metrics are computed from the cash flows of the same
project. -/
def metricsOf (capacity : ℚ) (a : AssumptionSet) (project_life : ℕ) (r : ℚ) :
    Option KeyMetrics :=
  (calculate_cash_flows capacity a project_life).bind fun cfs =>
    calculate_metrics capacity a cfs project_life r

/-! Basic facts about the rounding model. -/

theorem roundHalfEven_intCast (k : ℤ) : roundHalfEven (k : ℚ) = k := by
  unfold roundHalfEven
  rw [Int.floor_intCast]
  norm_num

theorem pyRound_intCast (k : ℤ) (d : ℕ) : pyRound (k : ℚ) d = k := by
  unfold pyRound
  have h1 : ((k : ℚ) * 10 ^ d) = ((k * 10 ^ d : ℤ) : ℚ) := by push_cast; ring
  rw [h1, roundHalfEven_intCast]
  have h2 : ((10 : ℚ) ^ d) ≠ 0 := pow_ne_zero _ (by norm_num)
  push_cast
  field_simp

theorem pyRound_natCast (n : ℕ) (d : ℕ) : pyRound (n : ℚ) d = n := by
  have h := pyRound_intCast (n : ℤ) d
  push_cast at h
  exact h

theorem pyRound_zero (d : ℕ) : pyRound 0 d = 0 := by
  have h := pyRound_intCast 0 d
  push_cast at h
  exact h

/-! Extraction lemmas: the shape of a successful engine call. -/

theorem calculate_cash_flows_eq_some {capacity : ℚ} {a : AssumptionSet} {project_life : ℕ}
    {cfs : List CashFlowYear}
    (h : calculate_cash_flows capacity a project_life = some cfs) :
    a.depreciation_years ≠ 0 ∧
      cfs = (List.range project_life).map fun i => mkCashFlowYear capacity a (i + 1) := by
  unfold calculate_cash_flows at h
  split at h
  · exact Option.noConfusion h
  · exact ⟨by assumption, (Option.some.inj h).symm⟩

theorem calculate_metrics_eq_some {capacity : ℚ} {a : AssumptionSet}
    {cash_flows : List CashFlowYear} {project_life : ℕ} {r : ℚ} {m : KeyMetrics}
    (h : calculate_metrics capacity a cash_flows project_life r = some m) :
    m =
      { total_capex := pyRound (a.capex_per_mw * capacity) 0
        npv := pyRound (npv_value capacity a cash_flows) 0
        irr := pyRound ((0.08 : ℚ) + r) 4
        payback_period_years := pyRound ((payback_value cash_flows project_life : ℕ) : ℚ) 1
        lcoe := pyRound (total_costs_value capacity a cash_flows /
          totalGeneration capacity a project_life) 2
        dscr_min := pyRound
          (if (dscrValues cash_flows).isEmpty then 0 else pyMin (dscrValues cash_flows)) 2
        dscr_avg := pyRound
          (if (dscrValues cash_flows).isEmpty then 0
           else (dscrValues cash_flows).sum / ((dscrValues cash_flows).length : ℚ)) 2
        equity_irr := pyRound (((0.08 : ℚ) + r) * (1.2 : ℚ)) 4
        total_generation_gwh := pyRound (totalGeneration capacity a project_life / 1000) 1
        carbon_offset_tonnes := pyRound
          (totalGeneration capacity a project_life * (0.4 : ℚ) / 1000 * 1000) 0 } := by
  unfold calculate_metrics at h
  split at h
  · exact Option.noConfusion h
  · exact (Option.some.inj h).symm

/-! Concrete inputs used by counterexamples and witnesses. -/

/-- Spec section 8 concrete scenario, completed with opex_per_mw_year =
10000 (the midpoint of the Solar PV range the repository draws from),
price_escalation_rate = 0.02 and discount_rate = 0.08 (the schema
defaults); those three fields are not fixed by the scenario text. -/
def scenario9 : AssumptionSet :=
  { capex_per_mw := 800000
    opex_per_mw_year := 10000
    capacity_factor := 0.25
    degradation_rate := 0.005
    electricity_price_mwh := 50
    price_escalation_rate := 0.02
    discount_rate := 0.08
    debt_ratio := 0.7
    interest_rate := 0.05
    loan_tenor_years := 15
    tax_rate := 0.25
    depreciation_years := 20 }

/-- Small assumption set for witnesses: no debt, no tax, no degradation,
one depreciation year, zero loan tenor themselves, two-year life. -/
def aW : AssumptionSet :=
  { capex_per_mw := 10
    opex_per_mw_year := 0
    capacity_factor := 1
    degradation_rate := 0
    electricity_price_mwh := 1
    price_escalation_rate := 0
    discount_rate := 0
    debt_ratio := 0
    interest_rate := 0
    loan_tenor_years := 0
    tax_rate := 0
    depreciation_years := 1 }

/-- The two cash-flow records calculate_cash_flows 1 aW 2 produces. -/
def cfsW : List CashFlowYear :=
  [{ year := 1, revenue := 8760, opex := 0, ebitda := 8760, depreciation := 10,
     interest_expense := 0, principal_repayment := 0, tax := 0, net_income := 8750,
     free_cash_flow := 8760, cumulative_cash_flow := 8750 },
   { year := 2, revenue := 8760, opex := 0, ebitda := 8760, depreciation := 0,
     interest_expense := 0, principal_repayment := 0, tax := 0, net_income := 8760,
     free_cash_flow := 8760, cumulative_cash_flow := 17510 }]

/-- The metrics record calculate_metrics 1 aW cfsW 2 0 produces. -/
def mW : KeyMetrics :=
  { total_capex := 10, npv := 17510, irr := 2/25, payback_period_years := 1, lcoe := 0,
    dscr_min := 0, dscr_avg := 0, equity_irr := 12/125, total_generation_gwh := 35/2,
    carbon_offset_tonnes := 7008 }

/-- The metrics record calculate_metrics 1 aW cfsW 2 (1/100) produces:
identical to mW except for irr and equity_irr. -/
def mW2 : KeyMetrics :=
  { total_capex := 10, npv := 17510, irr := 9/100, payback_period_years := 1, lcoe := 0,
    dscr_min := 0, dscr_avg := 0, equity_irr := 27/250, total_generation_gwh := 35/2,
    carbon_offset_tonnes := 7008 }

/-- Assumption set with depreciation_years = 0, otherwise ordinary. -/
def aC4 : AssumptionSet :=
  { capex_per_mw := 800000
    opex_per_mw_year := 10000
    capacity_factor := 0.25
    degradation_rate := 0.005
    electricity_price_mwh := 50
    price_escalation_rate := 0.02
    discount_rate := 0.08
    debt_ratio := 0.7
    interest_rate := 0.05
    loan_tenor_years := 15
    tax_rate := 0.25
    depreciation_years := 0 }

/-- Assumption set with capacity_factor = 0, so the lifetime generation is
zero; all other fields ordinary. -/
def aC5 : AssumptionSet :=
  { capex_per_mw := 800000
    opex_per_mw_year := 10000
    capacity_factor := 0
    degradation_rate := 0.005
    electricity_price_mwh := 50
    price_escalation_rate := 0.02
    discount_rate := 0.08
    debt_ratio := 0.7
    interest_rate := 0.05
    loan_tenor_years := 2
    tax_rate := 0.25
    depreciation_years := 2 }

/-- Assumption set with several invalid entries: negative interest,
discount and tax rates (used together with a negative capacity). -/
def aC6 : AssumptionSet :=
  { capex_per_mw := 800000
    opex_per_mw_year := 10000
    capacity_factor := 0.25
    degradation_rate := 0.005
    electricity_price_mwh := 50
    price_escalation_rate := 0.02
    discount_rate := -0.08
    debt_ratio := 0.7
    interest_rate := -0.05
    loan_tenor_years := 3
    tax_rate := -0.25
    depreciation_years := 5 }

/-- C4: the claim says that with depreciation_years = 0 the cash-flow
projection completes successfully and reports zero depreciation for every
operating year.  The code instead computes capex / depreciation_years at
line 260, before the loop, and raises ZeroDivisionError, so no projection
is produced at all: for every input with depreciation_years = 0 the call
fails. -/
theorem calculate_cash_flows_zero_depreciation_raises
    (capacity : ℚ) (a : AssumptionSet) (project_life : ℕ)
    (h : a.depreciation_years = 0) :
    calculate_cash_flows capacity a project_life = none := by
  unfold calculate_cash_flows
  rw [if_pos h]

theorem calculate_cash_flows_zero_depreciation_raises_witness :
    calculate_cash_flows 100 aC4 25 = none :=
  calculate_cash_flows_zero_depreciation_raises 100 aC4 25 rfl

/-- C5: the claim says that with zero lifetime generation the metrics
computation reports an undefined-value sentinel for LCOE while the other
metrics remain valid.  The code instead divides total_costs by
total_generation at line 336 with no guard, so the whole call raises
ZeroDivisionError and no metrics record exists: with capacity_factor = 0
the projection succeeds but the metrics call fails. -/
theorem calculate_metrics_zero_generation_raises :
    (calculate_cash_flows 100 aC5 3).isSome = true ∧
      metricsOf 100 aC5 3 0 = none := by
  with_unfolding_all decide

/-- C6: the claim says an AssumptionSet with non-positive capacity,
negative rates, or depreciation_years <= 0 with depreciation required is
rejected with an InvalidAssumption error before any projection year is
computed.  The code performs no validation: with capacity = -50 and
negative interest, discount and tax rates it produces a full three-year
cash-flow sequence whose every revenue is negative. -/
theorem calculate_cash_flows_no_validation :
    (calculate_cash_flows (-50) aC6 3).isSome = true ∧
      ((calculate_cash_flows (-50) aC6 3).getD []).length = 3 ∧
      ((calculate_cash_flows (-50) aC6 3).getD []).map
        (fun cf => decide (cf.revenue < 0)) = [true, true, true] := by
  with_unfolding_all decide

/-- Closed form of the cumulative position, for every year. -/
theorem cumulative_closed (capacity : ℚ) (a : AssumptionSet) (N : ℕ) :
    cumulative capacity a N =
      -(capex capacity a) * (1 - a.debt_ratio) + ∑ y ∈ Finset.Icc 1 N, fcfAt capacity a y := by
  induction N with
  | zero => simp [cumulative]
  | succ k ih =>
    rw [cumulative, ih, Finset.sum_Icc_succ_top (Nat.one_le_iff_ne_zero.mpr (Nat.succ_ne_zero k))]
    ring

/-- C3: for every AssumptionSet and every year N in 1..project_life, the
internal (pre-rounding) cumulative cash flow at year N equals the initial
equity outlay -capex * (1 - debt_ratio) plus the sum of free cash flow
over years 1..N, exactly. -/
theorem cumulative_eq_equity_plus_fcf_sum (capacity : ℚ) (a : AssumptionSet)
    (project_life N : ℕ) (_h1 : 1 ≤ N) (_h2 : N ≤ project_life) :
    cumulative capacity a N =
      -(capex capacity a) * (1 - a.debt_ratio) + ∑ y ∈ Finset.Icc 1 N, fcfAt capacity a y :=
  cumulative_closed capacity a N

theorem cumulative_eq_equity_plus_fcf_sum_witness :
    cumulative 1 aW 2 =
      -(capex 1 aW) * (1 - aW.debt_ratio) + ∑ y ∈ Finset.Icc 1 2, fcfAt 1 aW y :=
  cumulative_eq_equity_plus_fcf_sum 1 aW 2 2 (by norm_num) (by norm_num)

/-- C10: the reported equity IRR is always round(irr * 1.2, 4) where irr is
the pre-rounding value 0.08 + r of line 321; in particular it is a function
of the random draw alone and does not depend on the cash-flow sequence. -/
theorem equity_irr_is_fixed_multiple_of_irr (capacity : ℚ) (a : AssumptionSet)
    (cash_flows : List CashFlowYear) (project_life : ℕ) (r : ℚ) (m : KeyMetrics)
    (h : calculate_metrics capacity a cash_flows project_life r = some m) :
    m.equity_irr = pyRound (((0.08 : ℚ) + r) * (1.2 : ℚ)) 4 ∧
      m.irr = pyRound ((0.08 : ℚ) + r) 4 := by
  rw [calculate_metrics_eq_some h]
  exact ⟨rfl, rfl⟩

theorem equity_irr_is_fixed_multiple_of_irr_witness :
    mW.equity_irr = pyRound (((0.08 : ℚ) + 0) * (1.2 : ℚ)) 4 ∧
      mW.irr = pyRound ((0.08 : ℚ) + 0) 4 :=
  equity_irr_is_fixed_multiple_of_irr 1 aW cfsW 2 0 mW (by with_unfolding_all rfl)

/-- C1 counterexample: the metrics computation is not deterministic on
fixed assumptions and cash flows, because irr = 0.08 + random.uniform
(-0.03, 0.05) at line 321.  Two draws inside the uniform range (0 and
0.01) give different KeyMetrics records for the same project. -/
theorem calculate_metrics_not_deterministic :
    metricsOf 1 aW 2 0 ≠ metricsOf 1 aW 2 (1/100) := by
  have h1 : metricsOf 1 aW 2 0 = some mW := by with_unfolding_all rfl
  have h2 : metricsOf 1 aW 2 (1/100) = some mW2 := by with_unfolding_all rfl
  rw [h1, h2]
  intro h
  have h3 : mW = mW2 := Option.some.inj h
  have h4 : mW.irr = mW2.irr := by rw [h3]
  have h5 : (2/25 : ℚ) = 9/100 := h4
  norm_num at h5

/-- C1 amended: for a fixed random draw the computation is a pure
function, and every field except irr and equity_irr is independent of the
draw: two invocations on the same assumptions and cash-flow sequence agree
on total_capex, npv, payback, lcoe, dscr min and avg, total generation and
carbon offset, whatever offsets were drawn. -/
theorem calculate_metrics_deterministic_except_irr
    (capacity : ℚ) (a : AssumptionSet) (cash_flows : List CashFlowYear)
    (project_life : ℕ) (r₁ r₂ : ℚ) (m₁ m₂ : KeyMetrics)
    (h₁ : calculate_metrics capacity a cash_flows project_life r₁ = some m₁)
    (h₂ : calculate_metrics capacity a cash_flows project_life r₂ = some m₂) :
    m₁.total_capex = m₂.total_capex ∧ m₁.npv = m₂.npv ∧
      m₁.payback_period_years = m₂.payback_period_years ∧ m₁.lcoe = m₂.lcoe ∧
      m₁.dscr_min = m₂.dscr_min ∧ m₁.dscr_avg = m₂.dscr_avg ∧
      m₁.total_generation_gwh = m₂.total_generation_gwh ∧
      m₁.carbon_offset_tonnes = m₂.carbon_offset_tonnes := by
  rw [calculate_metrics_eq_some h₁, calculate_metrics_eq_some h₂]
  exact ⟨rfl, rfl, rfl, rfl, rfl, rfl, rfl, rfl⟩

theorem calculate_metrics_deterministic_except_irr_witness :
    mW.total_capex = mW2.total_capex ∧ mW.npv = mW2.npv ∧
      mW.payback_period_years = mW2.payback_period_years ∧ mW.lcoe = mW2.lcoe ∧
      mW.dscr_min = mW2.dscr_min ∧ mW.dscr_avg = mW2.dscr_avg ∧
      mW.total_generation_gwh = mW2.total_generation_gwh ∧
      mW.carbon_offset_tonnes = mW2.carbon_offset_tonnes :=
  calculate_metrics_deterministic_except_irr 1 aW cfsW 2 0 (1/100) mW mW2
    (by with_unfolding_all rfl) (by with_unfolding_all rfl)

set_option maxRecDepth 4000 in
/-- C9 counterexample: on the section 8 scenario, completed with the
repository-typical Solar PV opex of 10000 per MW-year (and the schema
default escalation and discount rates), the engine reports a payback year
of exactly 8, which is not strictly between 8 and 14. -/
theorem scenario_payback_not_in_range :
    (metricsOf 100 scenario9 25 0).map (fun m => m.payback_period_years) = some 8 ∧
      ¬ (8 < (8 : ℚ)) :=
  ⟨by with_unfolding_all rfl, lt_irrefl 8⟩

set_option maxRecDepth 4000 in
/-- C9 amended: on the section 8 scenario with opex_per_mw_year = 10000,
price_escalation_rate = 0.02 and discount_rate = 0.08 the engine produces
an initial equity outlay of -24000000, year-1 generation of 219000 MWh,
year-1 revenue of 10950000, a debt balance of exactly zero after year 15,
and a payback year of exactly 8 (not strictly between 8 and 14). -/
theorem scenario_expected_values :
    cumulative 100 scenario9 0 = -24000000 ∧
      generationAt 100 scenario9 1 = 219000 ∧
      revenueAt 100 scenario9 1 = 10950000 ∧
      debtBalance 100 scenario9 15 = 0 ∧
      (metricsOf 100 scenario9 25 0).map (fun m => m.payback_period_years) = some 8 :=
  ⟨by with_unfolding_all rfl, by with_unfolding_all rfl, by with_unfolding_all rfl,
    by with_unfolding_all rfl, by with_unfolding_all rfl⟩

/-- Once the debt balance reaches zero it stays zero: the loop guard
requires debt_balance > 0. -/
theorem debtBal_zero_step (b0 : ℚ) (tenor : ℤ) (y : ℕ)
    (h : debtBal b0 tenor y = 0) : debtBal b0 tenor (y + 1) = 0 := by
  simp [debtBal, h]

/-- The debt balance stays non-negative when it starts non-negative. -/
theorem debtBal_nonneg (b0 : ℚ) (tenor : ℤ) (h : 0 ≤ b0) (y : ℕ) :
    0 ≤ debtBal b0 tenor y := by
  induction y with
  | zero => simpa [debtBal] using h
  | succ k ih =>
    simp only [debtBal]
    split
    case isTrue hc =>
      have hd : (1 : ℚ) ≤ ((tenor - ((k : ℤ) + 1) + 1 : ℤ) : ℚ) := by
        exact_mod_cast (by omega : (1 : ℤ) ≤ tenor - ((k : ℤ) + 1) + 1)
      have hdiv := div_le_self (le_of_lt hc.2) hd
      linarith
    case isFalse => exact ih

/-- The debt balance never increases from one year to the next. -/
theorem debtBal_succ_le (b0 : ℚ) (tenor : ℤ) (h : 0 ≤ b0) (y : ℕ) :
    debtBal b0 tenor (y + 1) ≤ debtBal b0 tenor y := by
  have hy := debtBal_nonneg b0 tenor h y
  simp only [debtBal]
  split
  case isTrue hc =>
    have hd : (0 : ℚ) < ((tenor - ((y : ℤ) + 1) + 1 : ℤ) : ℚ) := by
      exact_mod_cast (by omega : (0 : ℤ) < tenor - ((y : ℤ) + 1) + 1)
    have hdiv : 0 ≤ debtBal b0 tenor y / ((tenor - ((y : ℤ) + 1) + 1 : ℤ) : ℚ) :=
      div_nonneg hy (le_of_lt hd)
    linarith
  case isFalse => exact le_refl _

/-- Closed form of the equal-principal recurrence within the tenor: after
y years the balance is b0 * (tenor - y) / tenor. -/
theorem debtBal_closed (b0 : ℚ) (tenor : ℤ) (ht : 1 ≤ tenor) (hb : 0 ≤ b0) :
    ∀ y : ℕ, (y : ℤ) ≤ tenor →
      debtBal b0 tenor y = b0 * ((tenor - (y : ℤ) : ℤ) : ℚ) / (tenor : ℚ) := by
  have htQ : ((tenor : ℚ)) ≠ 0 := by
    have : (1 : ℚ) ≤ (tenor : ℚ) := by exact_mod_cast ht
    linarith
  intro y
  induction y with
  | zero =>
    intro _
    simp only [debtBal, Nat.cast_zero, sub_zero]
    rw [mul_div_assoc, div_self htQ, mul_one]
  | succ k ih =>
    intro hk1
    have hk1Z : (k : ℤ) + 1 ≤ tenor := by exact_mod_cast hk1
    have ihv := ih (by omega)
    have hsub : ((tenor - (k : ℤ) : ℤ) : ℚ) ≠ 0 := by
      have : (1 : ℚ) ≤ ((tenor - (k : ℤ) : ℤ) : ℚ) := by
        exact_mod_cast (by omega : (1 : ℤ) ≤ tenor - (k : ℤ))
      linarith
    simp only [debtBal]
    split
    case isTrue hc =>
      rw [ihv]
      have hdd : ((tenor - ((k : ℤ) + 1) + 1 : ℤ) : ℚ) = ((tenor - (k : ℤ) : ℤ) : ℚ) := by
        push_cast
        ring
      rw [hdd]
      push_cast
      push_cast at hsub
      field_simp
      ring
    case isFalse hc =>
      have hnpos : ¬ (0 < debtBal b0 tenor k) := fun hp => hc ⟨hk1Z, hp⟩
      have h0 : debtBal b0 tenor k = 0 :=
        le_antisymm (not_lt.mp hnpos) (debtBal_nonneg b0 tenor hb k)
      have hz : b0 * ((tenor - (k : ℤ) : ℤ) : ℚ) / (tenor : ℚ) = 0 := by rw [← ihv, h0]
      rw [div_eq_zero_iff] at hz
      rcases hz with hz | hz
      · rcases mul_eq_zero.mp hz with hz2 | hz2
        · rw [h0, hz2]
          simp
        · exact absurd hz2 hsub
      · exact absurd hz htQ

/-- After the tenor the balance is exactly zero. -/
theorem debtBal_eq_zero_of_tenor_le (b0 : ℚ) (tenor : ℤ) (ht : 1 ≤ tenor) (hb : 0 ≤ b0)
    (y : ℕ) (h : tenor ≤ (y : ℤ)) : debtBal b0 tenor y = 0 := by
  have htn : ((tenor.toNat : ℕ) : ℤ) = tenor := Int.toNat_of_nonneg (by omega)
  have hbase : debtBal b0 tenor tenor.toNat = 0 := by
    have hc := debtBal_closed b0 tenor ht hb tenor.toNat (by omega)
    rw [hc, htn]
    simp
  have hy : tenor.toNat ≤ y := by omega
  exact Nat.le_induction hbase (fun n _ ih => debtBal_zero_step b0 tenor n ih) y hy

/-- C2: for every AssumptionSet with loan tenor at least 1 and a
non-negative loan principal capex * debt_ratio, the debt balance produced
by the amortization recurrence is non-increasing from each year to the
next over years 1..tenor, and is exactly zero at year = tenor and at every
later year; this holds for every interest rate, since the balance
recurrence does not involve the rate. -/
theorem debtBalance_antitone_and_zero_at_tenor (capacity : ℚ) (a : AssumptionSet)
    (ht : 1 ≤ a.loan_tenor_years) (hb : 0 ≤ capex capacity a * a.debt_ratio) :
    (∀ y : ℕ, 1 ≤ y → (y : ℤ) ≤ a.loan_tenor_years →
      debtBalance capacity a y ≤ debtBalance capacity a (y - 1)) ∧
    (∀ y : ℕ, a.loan_tenor_years ≤ (y : ℤ) → debtBalance capacity a y = 0) := by
  constructor
  · intro y hy _
    obtain ⟨k, rfl⟩ : ∃ k, y = k + 1 := ⟨y - 1, by omega⟩
    simpa [debtBalance] using debtBal_succ_le _ a.loan_tenor_years hb k
  · intro y h
    exact debtBal_eq_zero_of_tenor_le _ _ ht hb y h

theorem debtBalance_antitone_and_zero_at_tenor_witness :
    debtBalance 100 scenario9 1 ≤ debtBalance 100 scenario9 0 ∧
      debtBalance 100 scenario9 15 = 0 := by
  have h := debtBalance_antitone_and_zero_at_tenor 100 scenario9 (by decide)
    (by with_unfolding_all rfl)
  exact ⟨h.1 1 (by norm_num) (by decide), h.2 15 (by decide)⟩

/-- A find? over List.range returns none when the predicate never holds
below the bound. -/
theorem find?_range_eq_none (p : ℕ → Bool) :
    ∀ n : ℕ, (∀ i, i < n → p i = false) → (List.range n).find? p = none := by
  intro n
  induction n with
  | zero => intro _; rfl
  | succ k ih =>
    intro h
    have hk : p k = false := h k (by omega)
    rw [List.range_succ, List.find?_append, ih (fun i hi => h i (by omega))]
    simp [List.find?_cons, hk]

/-- A find? over List.range returns the least index satisfying the
predicate. -/
theorem find?_range_eq_some (p : ℕ → Bool) (i0 : ℕ) (h1 : p i0 = true)
    (h2 : ∀ j, j < i0 → p j = false) :
    ∀ n : ℕ, i0 < n → (List.range n).find? p = some i0 := by
  intro n
  induction n with
  | zero => intro h; omega
  | succ k ih =>
    intro h0
    rw [List.range_succ, List.find?_append]
    rcases Nat.lt_or_ge i0 k with hk | hk
    · rw [ih hk]
      rfl
    · have hik : i0 = k := by omega
      subst hik
      rw [find?_range_eq_none p i0 h2]
      simp [List.find?_cons, h1]

/-- C7: the reported payback year is the year of the first (equivalently,
since the records are ordered by year, the smallest-year) record whose
stored cumulative cash flow is nonnegative, and when no year in
1..project_life has a nonnegative stored cumulative cash flow the payback
equals the full project life, as a default rather than an error. -/
theorem payback_is_least_breakeven_year (capacity : ℚ) (a : AssumptionSet)
    (project_life : ℕ) (r : ℚ) (cfs : List CashFlowYear) (m : KeyMetrics)
    (hcf : calculate_cash_flows capacity a project_life = some cfs)
    (hm : calculate_metrics capacity a cfs project_life r = some m) :
    ((∀ y : ℕ, 1 ≤ y → y ≤ project_life → pyRound (cumulative capacity a y) 0 < 0) →
      m.payback_period_years = (project_life : ℚ)) ∧
    (∀ y0 : ℕ, 1 ≤ y0 → y0 ≤ project_life →
      0 ≤ pyRound (cumulative capacity a y0) 0 →
      (∀ z : ℕ, 1 ≤ z → z < y0 → pyRound (cumulative capacity a z) 0 < 0) →
      m.payback_period_years = (y0 : ℚ)) := by
  obtain ⟨hdep, hcfs⟩ := calculate_cash_flows_eq_some hcf
  have hpb : m.payback_period_years = ((payback_value cfs project_life : ℕ) : ℚ) := by
    rw [calculate_metrics_eq_some hm]
    exact pyRound_natCast _ 1
  subst hcfs
  have hfind :
      ((List.range project_life).map fun i => mkCashFlowYear capacity a (i + 1)).find?
          (fun cf => decide (0 ≤ cf.cumulative_cash_flow)) =
        ((List.range project_life).find? fun i =>
            decide (0 ≤ pyRound (cumulative capacity a (i + 1)) 0)).map
          (fun i => mkCashFlowYear capacity a (i + 1)) := by
    rw [List.find?_map]
    rfl
  constructor
  · intro hall
    rw [hpb]
    have hv : payback_value
        ((List.range project_life).map fun i => mkCashFlowYear capacity a (i + 1))
        project_life = project_life := by
      unfold payback_value
      rw [hfind, find?_range_eq_none _ project_life
        (fun i hi => decide_eq_false (not_le.mpr (hall (i + 1) (by omega) (by omega))))]
      rfl
    rw [hv]
  · intro y0 h1 h2 h3 h4
    rw [hpb]
    have hv : payback_value
        ((List.range project_life).map fun i => mkCashFlowYear capacity a (i + 1))
        project_life = y0 := by
      unfold payback_value
      have hy0 : y0 - 1 + 1 = y0 := by omega
      rw [hfind, find?_range_eq_some _ (y0 - 1) (by rw [hy0]; exact decide_eq_true h3)
        (fun j hj => decide_eq_false (not_le.mpr (h4 (j + 1) (by omega) (by omega))))
        project_life (by omega)]
      simp [mkCashFlowYear, hy0]
    rw [hv]

theorem payback_is_least_breakeven_year_witness : mW.payback_period_years = 1 := by
  have h := (payback_is_least_breakeven_year 1 aW 2 0 cfsW mW
    (by with_unfolding_all rfl) (by with_unfolding_all rfl)).2 1 (by omega) (by omega)
    (by with_unfolding_all rfl) (fun z hz1 hz2 => absurd hz2 (by omega))
  simpa using h

/-- Folding min over a list stays below the initial value. -/
theorem foldl_min_le_init (xs : List ℚ) : ∀ x : ℚ, xs.foldl min x ≤ x := by
  induction xs with
  | nil => intro x; exact le_refl x
  | cons y ys ih => intro x; exact le_trans (ih (min x y)) (min_le_left x y)

/-- Folding min over a list stays below every member. -/
theorem foldl_min_le_mem (xs : List ℚ) : ∀ x v : ℚ, v ∈ xs → xs.foldl min x ≤ v := by
  induction xs with
  | nil => intro x v hv; cases hv
  | cons y ys ih =>
    intro x v hv
    rcases List.mem_cons.mp hv with rfl | hv2
    · exact le_trans (foldl_min_le_init ys (min x v)) (min_le_right x v)
    · exact ih (min x y) v hv2

/-- Folding min over a list yields the initial value or a member. -/
theorem foldl_min_mem (xs : List ℚ) : ∀ x : ℚ, xs.foldl min x ∈ x :: xs := by
  induction xs with
  | nil => intro x; exact List.mem_singleton.mpr rfl
  | cons y ys ih =>
    intro x
    simp only [List.foldl_cons]
    rcases List.mem_cons.mp (ih (min x y)) with h | h
    · rcases min_choice x y with hc | hc
      · rw [h, hc]; exact List.mem_cons_self x (y :: ys)
      · rw [h, hc]
        exact List.mem_cons_of_mem x (List.mem_cons_self y ys)
    · exact List.mem_cons_of_mem x (List.mem_cons_of_mem y h)

/-- pyMin of a list is a lower bound of its members. -/
theorem pyMin_le (l : List ℚ) (v : ℚ) (hv : v ∈ l) : pyMin l ≤ v := by
  cases l with
  | nil => cases hv
  | cons x xs =>
    rcases List.mem_cons.mp hv with rfl | h
    · exact foldl_min_le_init xs v
    · exact foldl_min_le_mem xs x v h

/-- pyMin of a nonempty list is one of its members. -/
theorem pyMin_mem (l : List ℚ) (h : l ≠ []) : pyMin l ∈ l := by
  cases l with
  | nil => exact absurd rfl h
  | cons x xs => exact foldl_min_mem xs x

/-- Membership in the dscr_values list characterized by the filter at
lines 339-343. -/
theorem mem_dscrValues_iff (cash_flows : List CashFlowYear) (v : ℚ) :
    v ∈ dscrValues cash_flows ↔
      ∃ cf ∈ cash_flows, 0 < debtService cf ∧ v = cf.ebitda / debtService cf := by
  unfold dscrValues
  rw [List.mem_filterMap]
  constructor
  · rintro ⟨cf, hcf, h⟩
    by_cases hd : 0 < debtService cf
    · rw [if_pos hd] at h
      exact ⟨cf, hcf, hd, (Option.some.inj h).symm⟩
    · rw [if_neg hd] at h
      exact Option.noConfusion h
  · rintro ⟨cf, hcf, hd, rfl⟩
    exact ⟨cf, hcf, by rw [if_pos hd]⟩

/-- C8: the dscr_values list holds exactly the ratios ebitda / (interest +
principal) of the records with positive stored debt service; dscr_min is
the rounded minimum of that list (a member and a lower bound) and dscr_avg
its rounded mean, computed over that subset only; when the list is empty
both metrics are the zero sentinel, and in particular a zero loan tenor
(all interest and principal zero) yields the zero sentinel for both
without any failure. -/
theorem dscr_min_avg_spec :
    (∀ (capacity : ℚ) (a : AssumptionSet) (cash_flows : List CashFlowYear)
        (project_life : ℕ) (r : ℚ) (m : KeyMetrics),
      calculate_metrics capacity a cash_flows project_life r = some m →
        (∀ v, v ∈ dscrValues cash_flows ↔
          ∃ cf ∈ cash_flows, 0 < debtService cf ∧ v = cf.ebitda / debtService cf) ∧
        (dscrValues cash_flows = [] → m.dscr_min = 0 ∧ m.dscr_avg = 0) ∧
        (dscrValues cash_flows ≠ [] →
          m.dscr_min = pyRound (pyMin (dscrValues cash_flows)) 2 ∧
          pyMin (dscrValues cash_flows) ∈ dscrValues cash_flows ∧
          (∀ v ∈ dscrValues cash_flows, pyMin (dscrValues cash_flows) ≤ v) ∧
          m.dscr_avg = pyRound ((dscrValues cash_flows).sum /
            ((dscrValues cash_flows).length : ℚ)) 2)) ∧
    (∀ (capacity : ℚ) (a : AssumptionSet) (project_life : ℕ) (r : ℚ)
        (cfs : List CashFlowYear) (m : KeyMetrics),
      a.loan_tenor_years = 0 →
      calculate_cash_flows capacity a project_life = some cfs →
      calculate_metrics capacity a cfs project_life r = some m →
        m.dscr_min = 0 ∧ m.dscr_avg = 0) := by
  constructor
  · intro capacity a cash_flows project_life r m h
    refine ⟨fun v => mem_dscrValues_iff cash_flows v, ?_, ?_⟩
    · intro he
      have hb : (dscrValues cash_flows).isEmpty = true := by rw [he]; rfl
      rw [calculate_metrics_eq_some h]
      constructor
      · show pyRound (if (dscrValues cash_flows).isEmpty then 0
          else pyMin (dscrValues cash_flows)) 2 = 0
        rw [hb, if_pos rfl, pyRound_zero]
      · show pyRound (if (dscrValues cash_flows).isEmpty then 0
          else (dscrValues cash_flows).sum / ((dscrValues cash_flows).length : ℚ)) 2 = 0
        rw [hb, if_pos rfl, pyRound_zero]
    · intro hne
      have hb : (dscrValues cash_flows).isEmpty = false := List.isEmpty_eq_false.mpr hne
      rw [calculate_metrics_eq_some h]
      refine ⟨?_, pyMin_mem _ hne, fun v hv => pyMin_le _ v hv, ?_⟩
      · show pyRound (if (dscrValues cash_flows).isEmpty then 0
          else pyMin (dscrValues cash_flows)) 2 = pyRound (pyMin (dscrValues cash_flows)) 2
        rw [hb]
        rfl
      · show pyRound (if (dscrValues cash_flows).isEmpty then 0
          else (dscrValues cash_flows).sum / ((dscrValues cash_flows).length : ℚ)) 2 =
            pyRound ((dscrValues cash_flows).sum / ((dscrValues cash_flows).length : ℚ)) 2
        rw [hb]
        rfl
  · intro capacity a project_life r cfs m ht hcf hm
    obtain ⟨hdep, rfl⟩ := calculate_cash_flows_eq_some hcf
    have hnil : dscrValues
        ((List.range project_life).map fun i => mkCashFlowYear capacity a (i + 1)) = [] := by
      unfold dscrValues
      rw [List.filterMap_eq_nil_iff]
      intro cf hcf2
      obtain ⟨i, _, rfl⟩ := List.mem_map.mp hcf2
      have hint : interestAt capacity a (i + 1) = 0 := by
        unfold interestAt
        rw [if_neg]
        rintro ⟨hle, _⟩
        omega
      have hpr : principalAt capacity a (i + 1) = 0 := by
        unfold principalAt
        rw [if_neg]
        rintro ⟨hle, _⟩
        omega
      have hds : debtService (mkCashFlowYear capacity a (i + 1)) = 0 := by
        simp [debtService, mkCashFlowYear, hint, hpr, pyRound_zero]
      rw [if_neg]
      rw [hds]
      exact lt_irrefl 0
    have hb : (dscrValues
        ((List.range project_life).map fun i => mkCashFlowYear capacity a (i + 1))).isEmpty
          = true := by rw [hnil]; rfl
    rw [calculate_metrics_eq_some hm]
    constructor
    · show pyRound (if (dscrValues _).isEmpty then 0 else pyMin (dscrValues _)) 2 = 0
      rw [hb, if_pos rfl, pyRound_zero]
    · show pyRound (if (dscrValues _).isEmpty then 0
        else (dscrValues _).sum / ((dscrValues _).length : ℚ)) 2 = 0
      rw [hb, if_pos rfl, pyRound_zero]

theorem dscr_min_avg_spec_witness : mW.dscr_min = 0 ∧ mW.dscr_avg = 0 :=
  dscr_min_avg_spec.2 1 aW 2 0 cfsW mW rfl (by with_unfolding_all rfl)
    (by with_unfolding_all rfl)
